import Mathlib

/-!
Shallow embedding of `ray/rllib/evaluation/torch_policy_graph.py`
(class `TorchPolicyGraph`), a PyTorch policy adapter with seven public
operations (compute_actions, learn_on_batch, compute_gradients,
apply_gradients, get_weights, set_weights, get_initial_state) and four
extension points (extra_grad_process, extra_action_out, extra_grad_info,
optimizer).

Modelling choices:
* Arrays and tensors are value blobs (`Int` data) tagged with the memory
  they reside in (`Device`); a numpy array is a tensor on `Device.cpu`.
* A model parameter is its data plus its gradient slot (`Option Int`),
  mirroring torch, where `p.grad` is `None` until a backward pass writes it.
  Parameter data and stored gradients live on the policy's device, so they
  carry no device tag; only boundary-crossing tensors do.
* The torch autograd engine and optimizer math are delegated third-party
  code, so they enter as function arguments: `gf i` is the gradient
  contribution of the loss on the given batch to parameter `i` (`none` when
  the parameter does not take part in the loss), and `stepFn` is the
  optimizer step, producing an optional new data value per parameter
  (`none` = parameter skipped, as Adam skips parameters whose grad is None)
  plus new optimizer state.
* The `with self.lock` / `with torch.no_grad()` structure of each method
  is transcribed as a literal event trace, checked by small interpreters.
-/

namespace TorchPolicyGraph

/-- Device placement: CPU host memory or the single CUDA GPU. -/
inductive Device where
  | cpu
  | cuda
deriving DecidableEq

/-- A tensor or numpy array crossing the policy boundary: a data blob plus
the memory it resides in. -/
structure Tensor where
  data : Int
  device : Device
deriving DecidableEq

/-- One model parameter: its value and its gradient slot, as in torch where
`p.grad` is None until backward touches `p`. -/
structure Param where
  data : Int
  grad : Option Int
deriving DecidableEq

/-- The mutable state guarded by the policy lock: the device chosen at
construction (`self.device`), the model's ordered parameter list
(`self._model.parameters()`), and abstract optimizer state. -/
structure PolicyState where
  device : Device
  params : List Param
  opt : Int
deriving DecidableEq

/-- Inner statistics dictionary (grad_info / grad_process_info). -/
abbrev StatDict := List (String × Int)

/-- Outer statistics dictionary keyed by LEARNER_STATS_KEY. -/
abbrev Stats := List (String × StatDict)

/-- Key under which learner statistics are returned. -/
def LEARNER_STATS_KEY : String := "learner_stats"

/-- Python truthiness of `os.environ.get("CUDA_VISIBLE_DEVICES", None)`:
None and the empty string are falsy, any other string is truthy. -/
def env_truthy : Option String → Bool
  | none => false
  | some v => !(v == "")

/-- Device selection in `__init__`: `torch.device("cuda") if
bool(os.environ.get("CUDA_VISIBLE_DEVICES", None)) else torch.device("cpu")`. -/
def select_device (cuda_visible_devices : Option String) : Device :=
  if env_truthy cuda_visible_devices then Device.cuda else Device.cpu

/-- Construction (`__init__`): the device is fixed from the environment
variable once, the model (its parameter list) is moved to that device, and
optimizer state is set up. No other operation takes the environment. -/
def construct (cuda_visible_devices : Option String) (model_params : List Param)
    (opt0 : Int) : PolicyState :=
  { device := select_device cuda_visible_devices
    params := model_params
    opt := opt0 }

/-- Optimizer `zero_grad`: every parameter whose grad slot is populated has
its gradient zeroed; a None grad stays None. -/
def zero_grad (ps : List Param) : List Param :=
  ps.map fun p => { p with grad := p.grad.map fun _ => 0 }

/-- Autograd `loss.backward()`: for each parameter taking part in the loss,
the contribution `gf i` is accumulated into its grad slot (allocating it at
0 when it was None); other parameters are untouched. -/
def backward (gf : Nat → Option Int) : List Param → List Param
  | [] => []
  | p :: ps =>
    (match gf 0 with
      | none => p
      | some c => { p with grad := some (p.grad.getD 0 + c) }) ::
      backward (fun i => gf (i + 1)) ps

/-- Writing the optimizer step's per-parameter output back into the
parameter list: each parameter either receives a new data value or is left
untouched (skipped); gradient slots are never modified by the step. -/
def step_write : List Param → List (Option Int) → List Param
  | [], _ => []
  | ps, [] => ps
  | p :: ps, d :: ds =>
    (match d with
      | some v => { p with data := v }
      | none => p) :: step_write ps ds

/-- The call `self._optimizer.step()`: the abstract step function sees the
full parameter list (with gradients) and the optimizer state, and its
output is written back in place. -/
def optimizer_step (stepFn : List Param → Int → List (Option Int) × Int)
    (s : PolicyState) : PolicyState :=
  { s with
    params := step_write s.params (stepFn s.params s.opt).1
    opt := (stepFn s.params s.opt).2 }

/-- Base-class extension point `extra_grad_process`: returns an empty dict
and performs no gradient processing. -/
def extra_grad_process : StatDict := []

/-- Base-class extension point `extra_grad_info`: returns an empty dict. -/
def extra_grad_info : StatDict := []

/-- The statistics dictionary `{LEARNER_STATS_KEY: grad_info}` returned by
learn_on_batch and compute_gradients, with grad_info updated by
grad_process_info (both empty in the base class). -/
def learner_stats : Stats :=
  [(LEARNER_STATS_KEY, extra_grad_info ++ extra_grad_process)]

/-- Method `learn_on_batch`: forward loss, `zero_grad`, `backward`, then
one optimizer step; returns the statistics dictionary. The lazy tensor
dict conversion of the batch is absorbed into `gf`. -/
def learn_on_batch (stepFn : List Param → Int → List (Option Int) × Int)
    (gf : Nat → Option Int) (s : PolicyState) : PolicyState × Stats :=
  (optimizer_step stepFn { s with params := backward gf (zero_grad s.params) },
    learner_stats)

/-- The gradient read-out loop of `compute_gradients`: for each parameter in
order, `p.grad.data.cpu().numpy()` (a host copy) when the grad slot is
populated, else None. -/
def grads_out (ps : List Param) : List (Option Tensor) :=
  ps.map fun p => p.grad.map fun g => { data := g, device := Device.cpu }

/-- Method `compute_gradients`: same as learn_on_batch but stopping short of
the optimizer step; returns the per-parameter gradient list and statistics,
leaving the freshly computed gradients on the parameters. -/
def compute_gradients (gf : Nat → Option Int) (s : PolicyState) :
    (List (Option Tensor) × Stats) × PolicyState :=
  ((grads_out (backward gf (zero_grad s.params)), learner_stats),
    { s with params := backward gf (zero_grad s.params) })

/-- The assignment loop of `apply_gradients`: `for g, p in
zip(gradients, self._model.parameters()): if g is not None: p.grad =
torch.from_numpy(g).to(self.device)`. zip truncates at the shorter list, a
None entry leaves the parameter untouched, and the incoming host array is
moved to the policy device (dropping its tag). -/
def assign_grads : List Param → List (Option Tensor) → List Param
  | [], _ => []
  | ps, [] => ps
  | p :: ps, g :: gs =>
    (match g with
      | some t => { p with grad := some t.data }
      | none => p) :: assign_grads ps gs

/-- Method `apply_gradients`: assign the supplied gradients positionally,
then perform one optimizer step. The Python method returns None; the
embedding returns only the updated policy state. -/
def apply_gradients (stepFn : List Param → Int → List (Option Int) × Int)
    (gradients : List (Option Tensor)) (s : PolicyState) : PolicyState :=
  optimizer_step stepFn { s with params := assign_grads s.params gradients }

/-- Method `get_weights`: `{k: v.cpu() for k, v in self._model.state_dict()}`,
a host copy of every parameter value, positionally ordered (names become
positions). -/
def get_weights (s : PolicyState) : List Tensor :=
  s.params.map fun p => { data := p.data, device := Device.cpu }

/-- Torch `load_state_dict` (strict): copies each snapshot value into the
matching parameter's data in place, leaving grad slots untouched; a
length/key mismatch raises, modelled as None. -/
def load_state_dict : List Param → List Tensor → Option (List Param)
  | [], [] => some []
  | p :: ps, w :: ws =>
    (load_state_dict ps ws).map fun r => { p with data := w.data } :: r
  | _, _ => none

/-- Method `set_weights`: `self._model.load_state_dict(weights)`. -/
def set_weights (s : PolicyState) (weights : List Tensor) : Option PolicyState :=
  (load_state_dict s.params weights).map fun ps => { s with params := ps }

/-- Torch `.numpy()` on a tensor: shares the buffer as a host array when the
tensor lives on the CPU, raises for a device-resident tensor (modelled as
None). Note get_initial_state uses `.numpy()` without `.cpu()`. -/
def tensor_numpy (t : Tensor) : Option Tensor :=
  if t.device = Device.cpu then some t else none

/-- The comprehension `[s.numpy() for s in ...]`: fails as a whole if any
element fails. -/
def numpy_list : List Tensor → Option (List Tensor)
  | [] => some []
  | t :: ts =>
    match tensor_numpy t with
    | none => none
    | some a => (numpy_list ts).map fun r => a :: r

/-- Method `get_initial_state`: `[s.numpy() for s in self._model.state_init()]`.
The policy state is a parameter (it is a method) but the body consults
neither the device nor the parameters; `state_init` is the model's declared
initial recurrent state. -/
def get_initial_state (_s : PolicyState) (state_init : List Tensor) :
    Option (List Tensor) :=
  numpy_list state_init

/-- Output of the model module: `logits, _, vf, state = model_out`. -/
structure ModelOut where
  logits : Tensor
  aux : Tensor
  vf : Tensor
  state : List Tensor
deriving DecidableEq

/-- Torch `.cpu()` (and the following `.numpy()`): a host copy of the data. -/
def tensor_cpu (t : Tensor) : Tensor := { t with device := Device.cpu }

/-- Base-class extension point `extra_action_out`: returns an empty dict. -/
def extra_action_out (_model_out : ModelOut) : StatDict := []

/-- Method `compute_actions`: builds the observation tensor on the policy
device, runs the model, samples from the action distribution constructed
over the returned logits (`action_dist_cls(logits).sample()`, absorbed into
`sampleFn`), and returns host copies of the actions and recurrent state
plus extra_action_out. The policy state is returned unchanged: the body
only reads the model under no_grad. -/
def compute_actions (modelFn : Tensor → Option (List Tensor) → ModelOut)
    (sampleFn : Tensor → Tensor) (s : PolicyState) (obs_batch : Int)
    (state_batches : Option (List Tensor)) :
    (Tensor × List Tensor × StatDict) × PolicyState :=
  ((tensor_cpu (sampleFn (modelFn { data := obs_batch, device := s.device }
        state_batches).logits),
    (modelFn { data := obs_batch, device := s.device } state_batches).state.map
      tensor_cpu,
    extra_action_out (modelFn { data := obs_batch, device := s.device }
      state_batches)),
    s)

/-- Default `optimizer` extension point: an Adam optimizer over the model's
parameter list with a learning rate. -/
structure Adam where
  params : List Param
  lr : Rat
deriving DecidableEq

/-- Torch's default Adam learning rate (1e-3). -/
def adam_default_lr : Rat := 1 / 1000

/-- The `optimizer` method: `torch.optim.Adam(self._model.parameters(),
lr=self.config["lr"])` when a config is attached (`hasattr(self, "config")`),
else `torch.optim.Adam(self._model.parameters())`. A config lacking the
"lr" key raises KeyError, modelled as None. -/
def optimizer (config : Option (List (String × Rat))) (ps : List Param) :
    Option Adam :=
  match config with
  | some c => (c.lookup "lr").map fun lr => { params := ps, lr := lr }
  | none => some { params := ps, lr := adam_default_lr }

/-! Event traces transcribed from the `with self.lock` / `with
torch.no_grad()` structure of each method body. A `touch` event is a read
or write of model or optimizer state. Python's with-statement releases the
lock on every exit path, exceptions included, so each `with self.lock`
block is bracketed by one acquire and one release. -/

/-- Events observable in a method body. -/
inductive Ev where
  | acquire
  | release
  | enterNoGrad
  | exitNoGrad
  | touch
deriving DecidableEq

/-- compute_actions: lock, no_grad, model forward and sampling, unwind. -/
def compute_actions_trace : List Ev :=
  [Ev.acquire, Ev.enterNoGrad, Ev.touch, Ev.exitNoGrad, Ev.release]

/-- learn_on_batch: lock; loss forward, zero_grad, backward, optimizer step. -/
def learn_on_batch_trace : List Ev :=
  [Ev.acquire, Ev.touch, Ev.touch, Ev.touch, Ev.touch, Ev.release]

/-- compute_gradients: lock; loss forward, zero_grad, backward, grad read-out. -/
def compute_gradients_trace : List Ev :=
  [Ev.acquire, Ev.touch, Ev.touch, Ev.touch, Ev.touch, Ev.release]

/-- apply_gradients: lock; gradient assignment loop, optimizer step. -/
def apply_gradients_trace : List Ev :=
  [Ev.acquire, Ev.touch, Ev.touch, Ev.release]

/-- get_weights: lock; state_dict read. -/
def get_weights_trace : List Ev :=
  [Ev.acquire, Ev.touch, Ev.release]

/-- set_weights: lock; load_state_dict write. -/
def set_weights_trace : List Ev :=
  [Ev.acquire, Ev.touch, Ev.release]

/-- get_initial_state: reads `self._model.state_init()` with NO lock. -/
def get_initial_state_trace : List Ev :=
  [Ev.touch]

/-- Checks that every model/optimizer touch in the trace happens with the
lock held (first argument: lock held on entry). -/
def touches_locked : Bool → List Ev → Bool
  | _, [] => true
  | _, Ev.acquire :: t => touches_locked true t
  | _, Ev.release :: t => touches_locked false t
  | l, Ev.touch :: t => l && touches_locked l t
  | l, _ :: t => touches_locked l t

/-- Checks that the trace acquires the lock first, releases it last, does
each exactly once (held for the whole call), and touches state only while
holding it. -/
def whole_call_locked (tr : List Ev) : Bool :=
  decide (tr.head? = some Ev.acquire) &&
    decide (tr.getLast? = some Ev.release) &&
    (tr.count Ev.acquire == 1) && (tr.count Ev.release == 1) &&
    touches_locked false tr

/-- Checks that every model touch happens inside a no_grad region. -/
def touches_in_no_grad : Bool → List Ev → Bool
  | _, [] => true
  | _, Ev.enterNoGrad :: t => touches_in_no_grad true t
  | _, Ev.exitNoGrad :: t => touches_in_no_grad false t
  | g, Ev.touch :: t => g && touches_in_no_grad g t
  | g, _ :: t => touches_in_no_grad g t

/-- The traces of all seven public operations, in interface order. -/
def public_op_traces : List (List Ev) :=
  [compute_actions_trace, learn_on_batch_trace, compute_gradients_trace,
    apply_gradients_trace, get_weights_trace, set_weights_trace,
    get_initial_state_trace]

/-- The six public operations whose bodies are wrapped in `with self.lock`. -/
def locked_op_traces : List (List Ev) :=
  [compute_actions_trace, learn_on_batch_trace, compute_gradients_trace,
    apply_gradients_trace, get_weights_trace, set_weights_trace]

/-! Concrete instances used to witness the theorems below on evaluable
inputs: a two-parameter model, a simple step function in the optimizer's
shape, and a gradient function touching only the first parameter. -/

/-- Concrete optimizer step: gradient descent on every parameter whose grad
slot is populated, counting steps in the optimizer state. -/
def demo_step : List Param → Int → List (Option Int) × Int :=
  fun ps o => (ps.map fun p => p.grad.map fun g => p.data - g, o + 1)

/-- Concrete two-parameter model. -/
def demo_params : List Param :=
  [{ data := 5, grad := some 3 }, { data := 7, grad := none }]

/-- Concrete CPU policy state. -/
def demo_state : PolicyState :=
  { device := Device.cpu, params := demo_params, opt := 0 }

/-- Concrete CUDA policy state over the same model. -/
def demo_state_cuda : PolicyState :=
  { device := Device.cuda, params := demo_params, opt := 1 }

/-- Concrete gradient set with an absent first entry. -/
def demo_gs : List (Option Tensor) :=
  [none, some { data := 9, device := Device.cpu }]

/-- Concrete gradient set shorter than the parameter list. -/
def demo_gs_short : List (Option Tensor) :=
  [some { data := 9, device := Device.cpu }]

/-- Concrete loss gradient: contributes 2 to the first parameter only. -/
def demo_gf : Nat → Option Int :=
  fun i => if i = 0 then some 2 else none

/-- Concrete model module: echoes the observation as logits and declares a
device-resident recurrent state. -/
def demo_model : Tensor → Option (List Tensor) → ModelOut :=
  fun ob _ =>
    { logits := ob, aux := ob, vf := ob
      state := [{ data := 1, device := Device.cuda }] }

/-- Concrete action distribution sampling. -/
def demo_sample : Tensor → Tensor :=
  fun t => { data := t.data + 1, device := t.device }

/-! Helper lemmas about the list-level operations. -/

theorem step_write_nil (ps : List Param) : step_write ps [] = ps := by
  cases ps <;> rfl

theorem assign_grads_nil (ps : List Param) : assign_grads ps [] = ps := by
  cases ps <;> rfl

theorem zero_grad_length (ps : List Param) :
    (zero_grad ps).length = ps.length := by
  simp [zero_grad]

theorem backward_length (gf : Nat → Option Int) (ps : List Param) :
    (backward gf ps).length = ps.length := by
  induction ps generalizing gf with
  | nil => rfl
  | cons p ps ih => cases h : gf 0 <;> simp [backward, h, ih]

theorem step_write_length (ps : List Param) (ds : List (Option Int)) :
    (step_write ps ds).length = ps.length := by
  induction ps generalizing ds with
  | nil => cases ds <;> rfl
  | cons p ps ih =>
    cases ds with
    | nil => rfl
    | cons d ds => cases d <;> simp [step_write, ih]

theorem assign_grads_length (ps : List Param) (gs : List (Option Tensor)) :
    (assign_grads ps gs).length = ps.length := by
  induction ps generalizing gs with
  | nil => cases gs <;> rfl
  | cons p ps ih =>
    cases gs with
    | nil => rfl
    | cons g gs => cases g <;> simp [assign_grads, ih]

theorem step_write_get_grad (ps : List Param) (ds : List (Option Int))
    (i : Nat) :
    ((step_write ps ds).get? i).map Param.grad =
      (ps.get? i).map Param.grad := by
  induction ps generalizing ds i with
  | nil => cases ds <;> rfl
  | cons p ps ih =>
    cases ds with
    | nil => rfl
    | cons d ds =>
      cases i with
      | zero => cases d <;> rfl
      | succ i => simpa [step_write] using ih ds i

theorem assign_grads_get_none (ps : List Param) (gs : List (Option Tensor))
    (i : Nat) (h : gs.get? i = some none) :
    (assign_grads ps gs).get? i = ps.get? i := by
  induction ps generalizing gs i with
  | nil => simp [assign_grads]
  | cons p ps ih =>
    cases gs with
    | nil => simp at h
    | cons g gs =>
      cases i with
      | zero =>
        simp only [List.get?] at h
        cases h
        rfl
      | succ i =>
        simp only [List.get?] at h
        simpa [assign_grads] using ih gs i h

theorem assign_grads_get_beyond (ps : List Param) (gs : List (Option Tensor))
    (i : Nat) (h : gs.length ≤ i) :
    (assign_grads ps gs).get? i = ps.get? i := by
  induction ps generalizing gs i with
  | nil => simp [assign_grads]
  | cons p ps ih =>
    cases gs with
    | nil => rw [assign_grads_nil]
    | cons g gs =>
      cases i with
      | zero => simp at h
      | succ i =>
        have h' : gs.length ≤ i := Nat.le_of_succ_le_succ h
        cases g <;> simpa [assign_grads] using ih gs i h'

theorem assign_grads_get_some (ps : List Param) (gs : List (Option Tensor))
    (j : Nat) (t : Tensor) (hj : gs.get? j = some (some t))
    (hjp : j < ps.length) :
    ((assign_grads ps gs).get? j).map Param.grad = some (some t.data) := by
  induction ps generalizing gs j with
  | nil => simp at hjp
  | cons p ps ih =>
    cases gs with
    | nil => simp at hj
    | cons g gs =>
      cases j with
      | zero =>
        simp only [List.get?] at hj
        cases hj
        rfl
      | succ j =>
        simp only [List.get?] at hj
        have hjp' : j < ps.length := Nat.lt_of_succ_lt_succ hjp
        cases g <;> simpa [assign_grads] using ih gs j hj hjp'

theorem assign_grads_grads_out (ps : List Param) :
    assign_grads ps (grads_out ps) = ps := by
  induction ps with
  | nil => rfl
  | cons p ps ih =>
    cases p with
    | mk d g => cases g <;> simp [grads_out, assign_grads, ih] <;>
        simpa [grads_out] using ih

theorem load_state_dict_get_weights (ps : List Param) :
    load_state_dict ps (ps.map fun p => { data := p.data, device := Device.cpu }) =
      some ps := by
  induction ps with
  | nil => rfl
  | cons p ps ih => cases p; simp [load_state_dict, ih]

theorem numpy_list_cpu (ts : List Tensor)
    (h : ∀ x ∈ ts, x.device = Device.cpu) :
    numpy_list ts = some ts := by
  induction ts with
  | nil => rfl
  | cons t ts ih =>
    have ht : t.device = Device.cpu := h t (List.mem_cons_self t ts)
    have ih' := ih fun x hx => h x (List.mem_cons_of_mem t hx)
    simp [numpy_list, tensor_numpy, ht, ih']

/-! Claim theorems. -/

/-- C1: for the base policy class from the same starting parameter and
optimizer state, compute_gradients on a batch followed by apply_gradients
with the returned gradient set ends in exactly the policy state that
learn_on_batch on the same batch produces: same parameters and same
optimizer state, for every optimizer step function. -/
theorem c1_compute_then_apply_eq_learn
    (stepFn : List Param → Int → List (Option Int) × Int)
    (gf : Nat → Option Int) (s : PolicyState) :
    apply_gradients stepFn (compute_gradients gf s).1.1
        (compute_gradients gf s).2 =
      (learn_on_batch stepFn gf s).1 := by
  simp [apply_gradients, compute_gradients, learn_on_batch,
    assign_grads_grads_out]

/-- C2 counterexample: the claim that every one of the seven public
operations acquires the lock is false at the concrete operation
get_initial_state, whose body touches model state with no lock event at
all. -/
theorem c2_all_ops_locked_counterexample :
    whole_call_locked get_initial_state_trace = false ∧
      public_op_traces.all whole_call_locked = false := by decide

/-- C2 amended: the six operations compute_actions, learn_on_batch,
compute_gradients, apply_gradients, get_weights and set_weights each
acquire the lock first, hold it for the whole call, touch model/optimizer
state only while holding it, and release it last (the with-statement
releases on every exit path); get_initial_state acquires no lock and reads
the model's initial state without it. -/
theorem c2_locking_amended :
    locked_op_traces.all whole_call_locked = true ∧
      whole_call_locked get_initial_state_trace = false ∧
      touches_locked false get_initial_state_trace = false := by decide

/-- C3: an absent (None) entry for a parameter in the gradient set passed
to apply_gradients leaves that parameter's stored gradient exactly as it
was before the call (no error: the function is total), while the optimizer
step is still performed once over the full parameter list, whose length is
preserved. -/
theorem c3_apply_gradients_absent_entry
    (stepFn : List Param → Int → List (Option Int) × Int)
    (gs : List (Option Tensor)) (s : PolicyState) (i : Nat)
    (h : gs.get? i = some none) :
    ((apply_gradients stepFn gs s).params.get? i).map Param.grad =
        (s.params.get? i).map Param.grad ∧
      (apply_gradients stepFn gs s).opt =
        (stepFn (assign_grads s.params gs) s.opt).2 ∧
      (apply_gradients stepFn gs s).params.length = s.params.length := by
  refine ⟨?_, rfl, ?_⟩
  · show ((step_write (assign_grads s.params gs) _).get? i).map Param.grad = _
    rw [step_write_get_grad, assign_grads_get_none s.params gs i h]
  · show (step_write (assign_grads s.params gs) _).length = _
    rw [step_write_length, assign_grads_length]

/-- C3 witness: the absent first entry of the concrete gradient set leaves
the first parameter's gradient untouched while the concrete step runs. -/
theorem c3_witness :
    demo_gs.get? 0 = some none ∧
      (((apply_gradients demo_step demo_gs demo_state).params.get? 0).map
            Param.grad =
          (demo_state.params.get? 0).map Param.grad ∧
        (apply_gradients demo_step demo_gs demo_state).opt =
          (demo_step (assign_grads demo_state.params demo_gs)
            demo_state.opt).2 ∧
        (apply_gradients demo_step demo_gs demo_state).params.length =
          demo_state.params.length) :=
  ⟨by decide,
    c3_apply_gradients_absent_entry demo_step demo_gs demo_state 0 (by decide)⟩

/-- C4: for every policy state, set_weights(get_weights()) succeeds and is
the identity: every parameter (data and gradient slot) is bit-identical
before and after the round trip. -/
theorem c4_set_get_weights_roundtrip (s : PolicyState) :
    set_weights s (get_weights s) = some s := by
  cases s with
  | mk d ps o =>
    simp [set_weights, get_weights, load_state_dict_get_weights]

/-- C5: compute_actions leaves the policy state (all model parameters and
optimizer state) unchanged, returns as actions a host copy of the sample
drawn from the action distribution built over the model's logits, returns
the recurrent state as host copies, and runs the model inside the no_grad
region of its trace. -/
theorem c5_compute_actions_frame
    (modelFn : Tensor → Option (List Tensor) → ModelOut)
    (sampleFn : Tensor → Tensor) (s : PolicyState) (obs_batch : Int)
    (state_batches : Option (List Tensor)) :
    (compute_actions modelFn sampleFn s obs_batch state_batches).2 = s ∧
      (compute_actions modelFn sampleFn s obs_batch state_batches).1.1 =
        tensor_cpu (sampleFn
          (modelFn { data := obs_batch, device := s.device }
            state_batches).logits) ∧
      (compute_actions modelFn sampleFn s obs_batch
          state_batches).1.1.device = Device.cpu ∧
      ((compute_actions modelFn sampleFn s obs_batch
          state_batches).1.2.1.all fun t => t.device == Device.cpu) = true ∧
      touches_in_no_grad false compute_actions_trace = true := by
  refine ⟨rfl, rfl, rfl, ?_, by decide⟩
  simp [compute_actions, tensor_cpu, List.all_eq_true]

/-- C6: the gradient set returned by compute_gradients has exactly one
entry per model parameter; entry i is the host copy of parameter i's
gradient after the backward pass when that gradient exists, and None
otherwise; every present entry lives in host memory. -/
theorem c6_compute_gradients_aligned (gf : Nat → Option Int)
    (s : PolicyState) :
    (compute_gradients gf s).1.1.length = s.params.length ∧
      (∀ i, (compute_gradients gf s).1.1.get? i =
        ((backward gf (zero_grad s.params)).get? i).map fun p =>
          p.grad.map fun g => ({ data := g, device := Device.cpu } : Tensor)) ∧
      ((compute_gradients gf s).1.1.all fun og =>
        og.elim true fun t => t.device == Device.cpu) = true := by
  refine ⟨?_, ?_, ?_⟩
  · show (grads_out _).length = _
    simp [grads_out, backward_length, zero_grad_length]
  · intro i
    show (grads_out _).get? i = _
    simp [grads_out, List.get?_eq_getElem?, List.getElem?_map]
  · show ((grads_out _).all _) = true
    simp only [grads_out, List.all_eq_true, List.mem_map]
    rintro og ⟨p, _, rfl⟩
    cases p.grad <;> simp

/-- C7: the default optimizer extension point builds an Adam optimizer
over the model's parameter list; with no config attached it silently uses
Adam's default learning rate, and with a config whose "lr" key is present
it uses the config's learning rate. -/
theorem c7_optimizer_default_and_config (ps : List Param)
    (c : List (String × Rat)) (lr : Rat) (h : c.lookup "lr" = some lr) :
    optimizer none ps = some { params := ps, lr := adam_default_lr } ∧
      optimizer (some c) ps = some { params := ps, lr := lr } :=
  ⟨rfl, by simp [optimizer, h]⟩

/-- C7 witness: a concrete config with lr = 2 and the no-config fallback. -/
theorem c7_witness :
    ([("lr", (2 : Rat))] : List (String × Rat)).lookup "lr" = some 2 ∧
      (optimizer none demo_params =
          some { params := demo_params, lr := adam_default_lr } ∧
        optimizer (some [("lr", (2 : Rat))]) demo_params =
          some { params := demo_params, lr := (2 : Rat) }) :=
  ⟨by decide,
    c7_optimizer_default_and_config demo_params [("lr", (2 : Rat))] 2
      (by decide)⟩

/-- C8: the device is decided exactly once, at construction: it is the GPU
iff the environment variable is set to a non-empty string; and no public
operation that returns a policy state changes the device (none of them
takes the environment as an input at all). -/
theorem c8_device_fixed_at_construction
    (env : Option String) (mp : List Param) (o0 : Int)
    (stepFn : List Param → Int → List (Option Int) × Int)
    (gf : Nat → Option Int) (gs : List (Option Tensor))
    (w : List Tensor) (s : PolicyState)
    (modelFn : Tensor → Option (List Tensor) → ModelOut)
    (sampleFn : Tensor → Tensor) (ob : Int) (sb : Option (List Tensor)) :
    ((construct env mp o0).device = Device.cuda ↔
        ∃ v, env = some v ∧ v ≠ "") ∧
      (learn_on_batch stepFn gf s).1.device = s.device ∧
      (compute_gradients gf s).2.device = s.device ∧
      (apply_gradients stepFn gs s).device = s.device ∧
      (compute_actions modelFn sampleFn s ob sb).2.device = s.device ∧
      ((set_weights s w).getD s).device = s.device := by
  refine ⟨?_, rfl, rfl, rfl, rfl, ?_⟩
  · cases env with
    | none => simp [construct, select_device, env_truthy]
    | some v =>
      by_cases hv : v = "" <;>
        simp [construct, select_device, env_truthy, hv]
  · cases h : load_state_dict s.params w <;> simp [set_weights, h]

/-- C9: get_initial_state ignores the policy state entirely (so in
particular the device the model was placed on), and when the model's
declared initial recurrent state consists of host tensors it returns them
unchanged as host arrays rather than raising. -/
theorem c9_get_initial_state_host (s t : PolicyState)
    (state_init : List Tensor)
    (h : ∀ x ∈ state_init, x.device = Device.cpu) :
    get_initial_state s state_init = get_initial_state t state_init ∧
      get_initial_state s state_init = some state_init :=
  ⟨rfl, numpy_list_cpu state_init h⟩

/-- C9 witness: a one-tensor host initial state, read from a CPU policy and
from a CUDA policy. -/
theorem c9_witness :
    (∀ x ∈ ([{ data := 3, device := Device.cpu }] : List Tensor),
        x.device = Device.cpu) ∧
      (get_initial_state demo_state [{ data := 3, device := Device.cpu }] =
          get_initial_state demo_state_cuda
            [{ data := 3, device := Device.cpu }] ∧
        get_initial_state demo_state [{ data := 3, device := Device.cpu }] =
          some [{ data := 3, device := Device.cpu }]) :=
  ⟨by decide,
    c9_get_initial_state_host demo_state demo_state_cuda
      [{ data := 3, device := Device.cpu }] (by decide)⟩

/-- C10: when the gradient sequence is shorter than the parameter list,
apply_gradients raises no error (it is total): parameters beyond the
sequence keep their stored gradients, a present entry at position j sets
parameter j's gradient to it, and the optimizer step is still performed
once over the full parameter list, whose length is preserved. -/
theorem c10_apply_gradients_short
    (stepFn : List Param → Int → List (Option Int) × Int)
    (gs : List (Option Tensor)) (s : PolicyState) (i j : Nat) (t : Tensor)
    (hi : gs.length ≤ i) (hj : gs.get? j = some (some t))
    (hjp : j < s.params.length) :
    ((apply_gradients stepFn gs s).params.get? i).map Param.grad =
        (s.params.get? i).map Param.grad ∧
      ((apply_gradients stepFn gs s).params.get? j).map Param.grad =
        some (some t.data) ∧
      (apply_gradients stepFn gs s).opt =
        (stepFn (assign_grads s.params gs) s.opt).2 ∧
      (apply_gradients stepFn gs s).params.length = s.params.length := by
  refine ⟨?_, ?_, rfl, ?_⟩
  · show ((step_write (assign_grads s.params gs) _).get? i).map Param.grad = _
    rw [step_write_get_grad, assign_grads_get_beyond s.params gs i hi]
  · show ((step_write (assign_grads s.params gs) _).get? j).map Param.grad = _
    rw [step_write_get_grad]
    exact assign_grads_get_some s.params gs j t hj hjp
  · show (step_write (assign_grads s.params gs) _).length = _
    rw [step_write_length, assign_grads_length]

/-- C10 witness: a one-entry gradient set against the concrete
two-parameter policy. -/
theorem c10_witness :
    (demo_gs_short.length ≤ 1 ∧
      demo_gs_short.get? 0 = some (some (Tensor.mk 9 Device.cpu)) ∧
      0 < demo_state.params.length) ∧
      (((apply_gradients demo_step demo_gs_short demo_state).params.get?
            1).map Param.grad =
          (demo_state.params.get? 1).map Param.grad ∧
        ((apply_gradients demo_step demo_gs_short demo_state).params.get?
            0).map Param.grad =
          some (some (Tensor.mk 9 Device.cpu).data) ∧
        (apply_gradients demo_step demo_gs_short demo_state).opt =
          (demo_step (assign_grads demo_state.params demo_gs_short)
            demo_state.opt).2 ∧
        (apply_gradients demo_step demo_gs_short demo_state).params.length =
          demo_state.params.length) :=
  ⟨⟨by decide, by decide, by decide⟩,
    c10_apply_gradients_short demo_step demo_gs_short demo_state 1 0
      (Tensor.mk 9 Device.cpu) (by decide) (by decide) (by decide)⟩

end TorchPolicyGraph
